import Mathlib

/-!
# Verification of the DataCrunch cluster-api provider reconcilers

Shallow embedding of the DataCrunchMachine / DataCrunchCluster reconcilers
and the DataCrunch cloud client of `cluster-api-provider-datacrunch`.

The embedding mirrors the Go source:
* `findInstance`, `reconcileNormal`, `reconcileDelete` embed the methods of
  `DataCrunchMachineReconciler` (controller package).
* `reconcileNetwork`, `reconcileLoadBalancer`, `reconcileClusterNormalWith`
  embed the methods of `DataCrunchClusterReconciler`.
* The cloud client is modelled as an oracle `CloudBehavior` giving the
  outcome of each remote call; every reconcile returns the trace of cloud
  calls it performed, so "no cloud interaction" is the trace being `[]`.

Machine integers do not occur; all data is strings, booleans and lists.
Condition bookkeeping follows cluster-api `conditions.MarkTrue/MarkFalse`:
the condition keyed by its type is replaced in place or appended.
-/

deriving instance DecidableEq for Except

namespace DataCrunch

/-- Severity of a cluster-api condition (`ConditionSeverityError` etc.). -/
inductive Severity where
  | error
  | warning
  | info
deriving DecidableEq

/-- A cluster-api condition record attached to an object's status. -/
structure Condition where
  condType : String
  status : Bool
  reason : String
  severity : Severity
  message : String
deriving DecidableEq

/-- Replace the condition keyed by `c.condType`, or append it
(cluster-api `conditions.Set` semantics restricted to what the
reconcilers use). -/
def setCondition (cs : List Condition) (c : Condition) : List Condition :=
  if cs.any (fun c0 => c0.condType = c.condType) then
    cs.map (fun c0 => if c0.condType = c.condType then c else c0)
  else
    cs ++ [c]

/-- Look up the condition with the given type. -/
def getCondition (cs : List Condition) (t : String) : Option Condition :=
  cs.find? (fun c => c.condType = t)

/-- `conditions.MarkFalse` on a condition list. -/
def markFalseC (cs : List Condition) (t reason : String) (sev : Severity)
    (msg : String) : List Condition :=
  setCondition cs { condType := t, status := false, reason := reason, severity := sev, message := msg }

/-- `conditions.MarkTrue` on a condition list. -/
def markTrueC (cs : List Condition) (t : String) : List Condition :=
  setCondition cs { condType := t, status := true, reason := "", severity := .info, message := "" }

/-! ## Constants from `api/v1beta1` -/

def MachineFinalizer : String := "datacrunchmachine.infrastructure.cluster.x-k8s.io"
def ClusterFinalizer : String := "datacrunchcluster.infrastructure.cluster.x-k8s.io"
def InstanceReadyCondition : String := "InstanceReady"
def NetworkInfrastructureReadyCondition : String := "NetworkInfrastructureReady"
def LoadBalancerReadyCondition : String := "LoadBalancerReady"
def DataCrunchClientFailedReason : String := "DataCrunchClientFailed"
def NetworkReconciliationFailedReason : String := "NetworkReconciliationFailed"
def LoadBalancerReconciliationFailedReason : String := "LoadBalancerReconciliationFailed"
def WaitingForClusterInfrastructureReason : String := "WaitingForClusterInfrastructure"
def WaitingForBootstrapDataReason : String := "WaitingForBootstrapData"
def InstanceCreationFailedReason : String := "InstanceCreationFailed"
def InstanceNotReadyReason : String := "InstanceNotReady"
def InstanceTerminatedReason : String := "InstanceTerminated"

/-- `capierrors.UpdateMachineError`, the failure reason latched on
termination. -/
def UpdateMachineError : String := "UpdateError"

/-! ## Cloud data model (`pkg/cloud`) -/

/-- A live cloud instance as returned by the DataCrunch client. -/
structure Instance where
  id : String
  name : String
  state : String
  instanceType : String := ""
  imageID : String := ""
  publicIP : String := ""
  privateIP : String := ""
  sshKeyName : String := ""
  createdAt : String := ""
deriving DecidableEq

/-- Creation request assembled by `createInstance`. -/
structure InstanceSpec where
  name : String
  instanceType : String
  imageID : String
  sshKeyName : String
  userData : String
  tags : List (String × String)
deriving DecidableEq

/-- One outbound cloud-client call, recorded in the reconcile trace. -/
inductive CloudCall where
  | getInstance (id : String)
  | createInstance (spec : InstanceSpec)
  | startInstance (id : String)
  | deleteInstance (id : String)
deriving DecidableEq

/-- Oracle describing what the cloud client would answer to each call.
`Except String` carries the error message of a failed call. -/
structure CloudBehavior where
  getInstance : String → Except String Instance
  createInstance : InstanceSpec → Except String Instance
  startInstance : String → Option String
  deleteInstance : String → Option String

/-! ## Machine data model (`api/v1beta1` DataCrunchMachine) -/

/-- Type tag of a machine address. -/
inductive AddressType where
  | hostname
  | internalIP
  | externalIP
deriving DecidableEq

/-- One entry of `Status.Addresses`. -/
structure MachineAddress where
  addrType : AddressType
  address : String
deriving DecidableEq

structure DataCrunchMachineSpec where
  providerID : Option String := none
  instanceType : String := ""
  image : String := ""
  sshKeyName : String := ""
  additionalTags : List (String × String) := []
deriving DecidableEq

structure DataCrunchMachineStatus where
  ready : Bool := false
  addresses : List MachineAddress := []
  instanceState : Option String := none
  failureReason : Option String := none
  failureMessage : Option String := none
  conditions : List Condition := []
deriving DecidableEq

structure DataCrunchMachine where
  name : String := ""
  finalizers : List String := []
  spec : DataCrunchMachineSpec := {}
  status : DataCrunchMachineStatus := {}
deriving DecidableEq

/-! ## findInstance -/

/-- The error message `Client.GetInstance` produces on HTTP 404
(`"instance not found: %s"`). -/
def notFoundMsg (instanceID : String) : String :=
  "instance not found: " ++ instanceID

/-- Instance-id extraction of `findInstance`: drop the 13 characters of
`"datacrunch://"` whenever the provider id is longer than that, else
yield the empty id. -/
def parseInstanceID (providerID : String) : String :=
  if providerID.length > 13 then providerID.drop 13 else ""

/-- `DataCrunchMachineReconciler.findInstance`: look the instance up by
provider id; the client's "not found" error is mapped to `ok none`. The
second component is the trace of cloud calls. -/
def findInstance (cb : CloudBehavior) (m : DataCrunchMachine) :
    Except String (Option Instance) × List CloudCall :=
  match m.spec.providerID with
  | some pid =>
    let instanceID := parseInstanceID pid
    if instanceID ≠ "" then
      match cb.getInstance instanceID with
      | .error e =>
        if e = notFoundMsg instanceID then (.ok none, [.getInstance instanceID])
        else (.error e, [.getInstance instanceID])
      | .ok inst => (.ok (some inst), [.getInstance instanceID])
    else
      (.ok none, [])
  | none => (.ok none, [])

/-! ## createInstance -/

/-- Insert a key into a tag map (Go map assignment: replace or add). -/
def tagInsert (tags : List (String × String)) (k v : String) : List (String × String) :=
  if tags.any (fun t => t.1 = k) then
    tags.map (fun t => if t.1 = k then (k, v) else t)
  else
    tags ++ [(k, v)]

/-- The instance specification `createInstance` assembles from the machine
spec: image defaulted to the base image when empty, cluster/machine
ownership tags injected. -/
def buildInstanceSpec (m : DataCrunchMachine) (clusterName machineName userData : String) :
    InstanceSpec :=
  { name := m.name
    instanceType := m.spec.instanceType
    imageID := if m.spec.image = "" then "ubuntu-22.04-cuda-12.1" else m.spec.image
    sshKeyName := m.spec.sshKeyName
    userData := userData
    tags := tagInsert (tagInsert m.spec.additionalTags "cluster.x-k8s.io/cluster-name" clusterName)
      "cluster.x-k8s.io/machine-name" machineName }

/-- `DataCrunchMachineReconciler.createInstance`. `bootstrap` is the result
of `getBootstrapData` (bootstrap secret contents or its error). -/
def createInstance (cb : CloudBehavior) (bootstrap : Except String String)
    (m : DataCrunchMachine) (clusterName machineName : String) :
    Except String Instance × List CloudCall :=
  match bootstrap with
  | .error e => (.error ("failed to get bootstrap data: " ++ e), [])
  | .ok userData =>
    let spec := buildInstanceSpec m clusterName machineName userData
    match cb.createInstance spec with
    | .error e => (.error ("failed to create DataCrunch instance: " ++ e), [.createInstance spec])
    | .ok inst => (.ok inst, [.createInstance spec])

/-! ## reconcileNormal -/

/-- Result of one machine reconcile: the mutated object, the requeue delay
(seconds; 0 = none), the returned error, and the trace of cloud calls. -/
structure MachineRecResult where
  machine : DataCrunchMachine
  requeueAfter : Nat
  err : Option String
  calls : List CloudCall
deriving DecidableEq

/-- Mark InstanceReady false on a machine. -/
def machineMarkFalse (m : DataCrunchMachine) (reason : String) (sev : Severity)
    (msg : String) : DataCrunchMachine :=
  { m with status := { m.status with
      conditions := markFalseC m.status.conditions InstanceReadyCondition reason sev msg } }

/-- `DataCrunchMachineReconciler.reconcileNormal`.
`infraReady` is `cluster.Status.InfrastructureReady`; `secretName` is
`machine.Spec.Bootstrap.DataSecretName`; `bootstrap` the result of
`getBootstrapData`; client construction always succeeds in the source
(`createDataCrunchClient` returns a fresh client and a nil error). -/
def reconcileNormal (cb : CloudBehavior) (bootstrap : Except String String)
    (infraReady : Bool) (secretName : Option String)
    (clusterName machineName : String) (m : DataCrunchMachine) : MachineRecResult :=
  -- terminal latch: error state short-circuits everything
  if m.status.failureReason.isSome || m.status.failureMessage.isSome then
    { machine := m, requeueAfter := 0, err := none, calls := [] }
  -- finalizer: add and return
  else if ¬ m.finalizers.contains MachineFinalizer then
    { machine := { m with finalizers := m.finalizers ++ [MachineFinalizer] },
      requeueAfter := 0, err := none, calls := [] }
  -- cluster-infrastructure gate
  else if ¬ infraReady then
    { machine := machineMarkFalse m WaitingForClusterInfrastructureReason .info "",
      requeueAfter := 0, err := none, calls := [] }
  -- bootstrap-data gate
  else if secretName.isNone then
    { machine := machineMarkFalse m WaitingForBootstrapDataReason .info "",
      requeueAfter := 0, err := none, calls := [] }
  else
    match findInstance cb m with
    | (.error e, calls) => { machine := m, requeueAfter := 0, err := some e, calls := calls }
    | (.ok optInst, calls0) =>
      let step : (DataCrunchMachine × String × List CloudCall) ⊕
          (DataCrunchMachine × Instance × List CloudCall) :=
        match optInst with
        | some inst => .inr (m, inst, calls0)
        | none =>
          match createInstance cb bootstrap m clusterName machineName with
          | (.error e, calls1) =>
            .inl (machineMarkFalse m InstanceCreationFailedReason .error e, e, calls0 ++ calls1)
          | (.ok inst, calls1) =>
            .inr (machineMarkFalse m InstanceNotReadyReason .info "", inst, calls0 ++ calls1)
      match step with
      | .inl (m1, e, calls) =>
        { machine := m1, requeueAfter := 0, err := some e, calls := calls }
      | .inr (m1, inst, calls) =>
        -- stamp the provider id only if currently unset
        let m2 := if m1.spec.providerID.isNone then
            { m1 with spec := { m1.spec with providerID := some ("datacrunch://" ++ inst.id) } }
          else m1
        -- record the observed instance state
        let m3 := { m2 with status := { m2.status with instanceState := some inst.state } }
        if inst.state = "running" then
          let addrs : List MachineAddress :=
            [{ addrType := .hostname, address := inst.name }]
            ++ (if inst.privateIP ≠ "" then
                  [{ addrType := .internalIP, address := inst.privateIP }] else [])
            ++ (if inst.publicIP ≠ "" then
                  [{ addrType := .externalIP, address := inst.publicIP }] else [])
          { machine := { m3 with status := { m3.status with
                ready := true
                conditions := markTrueC m3.status.conditions InstanceReadyCondition
                addresses := addrs } },
            requeueAfter := 0, err := none, calls := calls }
        else if inst.state = "pending" then
          { machine := machineMarkFalse m3 InstanceNotReadyReason .info "Instance is pending",
            requeueAfter := 30, err := none, calls := calls }
        else if inst.state = "stopped" then
          match cb.startInstance inst.id with
          | some e =>
            { machine := m3, requeueAfter := 30, err := some e,
              calls := calls ++ [.startInstance inst.id] }
          | none =>
            { machine := m3, requeueAfter := 30, err := none,
              calls := calls ++ [.startInstance inst.id] }
        else if inst.state = "terminated" then
          { machine := machineMarkFalse
              { m3 with status := { m3.status with
                  failureReason := some UpdateMachineError
                  failureMessage := some "Instance was terminated" } }
              InstanceTerminatedReason .error "Instance was terminated",
            requeueAfter := 0, err := none, calls := calls }
        else
          { machine := machineMarkFalse m3 InstanceNotReadyReason .warning
              ("Instance is in unknown state: " ++ inst.state),
            requeueAfter := 30, err := none, calls := calls }

/-! ## reconcileDelete -/

/-- `DataCrunchMachineReconciler.reconcileDelete`. Client construction
always succeeds in the source, so the `dataCrunchClient != nil` guard is
always taken. A `findInstance` error is logged and swallowed; a
`DeleteInstance` failure returns the error with a 30s requeue and keeps
the finalizer; otherwise the finalizer is removed. -/
def reconcileDelete (cb : CloudBehavior) (m : DataCrunchMachine) : MachineRecResult :=
  match findInstance cb m with
  | (.error _e, calls) =>
    -- "failed to find instance during deletion" is only logged
    { machine := { m with finalizers := m.finalizers.filter (fun f => f ≠ MachineFinalizer) },
      requeueAfter := 0, err := none, calls := calls }
  | (.ok none, calls) =>
    { machine := { m with finalizers := m.finalizers.filter (fun f => f ≠ MachineFinalizer) },
      requeueAfter := 0, err := none, calls := calls }
  | (.ok (some inst), calls) =>
    match cb.deleteInstance inst.id with
    | some e =>
      { machine := m, requeueAfter := 30, err := some e,
        calls := calls ++ [.deleteInstance inst.id] }
    | none =>
      { machine := { m with finalizers := m.finalizers.filter (fun f => f ≠ MachineFinalizer) },
        requeueAfter := 0, err := none, calls := calls ++ [.deleteInstance inst.id] }

/-! ## Cluster data model and DataCrunchClusterReconciler -/

/-- `clusterv1.APIEndpoint`; `IsZero` is host empty and port zero. -/
structure APIEndpoint where
  host : String := ""
  port : Int := 0
deriving DecidableEq

structure DataCrunchClusterStatus where
  ready : Bool := false
  conditions : List Condition := []
  -- `Status.Network` pointer: only its presence matters to the source
  networkSet : Bool := false
  -- `Status.FailureDomains`: name ↦ controlPlane flag
  failureDomains : Option (List (String × Bool)) := none
deriving DecidableEq

structure DataCrunchCluster where
  name : String := ""
  finalizers : List String := []
  controlPlaneEndpoint : APIEndpoint := {}
  status : DataCrunchClusterStatus := {}
deriving DecidableEq

/-- Result of one cluster reconcile. -/
structure ClusterRecResult where
  cluster : DataCrunchCluster
  requeueAfter : Nat
  err : Option String
deriving DecidableEq

/-- Mark a condition false on a cluster. -/
def clusterMarkFalse (c : DataCrunchCluster) (t reason : String) (sev : Severity)
    (msg : String) : DataCrunchCluster :=
  { c with status := { c.status with
      conditions := markFalseC c.status.conditions t reason sev msg } }

/-- `DataCrunchClusterReconciler.reconcileNetwork`: placeholder that
initializes empty network status and a default failure domain, never
failing. -/
def reconcileNetwork (c : DataCrunchCluster) : DataCrunchCluster × Option String :=
  let c1 := if ¬ c.status.networkSet then
      { c with status := { c.status with networkSet := true } }
    else c
  let c2 := if c1.status.failureDomains.isNone then
      { c1 with status := { c1.status with failureDomains := some [("default", true)] } }
    else c1
  (c2, none)

/-- `DataCrunchClusterReconciler.reconcileLoadBalancer`: no-op when the
control-plane endpoint is set, otherwise synthesize the placeholder
endpoint from the owner cluster's name; never fails. -/
def reconcileLoadBalancer (clusterName : String) (c : DataCrunchCluster) :
    DataCrunchCluster × Option String :=
  if ¬ (c.controlPlaneEndpoint.host = "" ∧ c.controlPlaneEndpoint.port = 0) then
    (c, none)
  else
    ({ c with controlPlaneEndpoint :=
        { host := "cluster-" ++ clusterName ++ ".datacrunch.local", port := 6443 } }, none)

/-- Control skeleton of `DataCrunchClusterReconciler.reconcileNormal`,
parameterized by the outcomes of the two sub-reconciliations (which are
in-place mutations returning an optional error in the source). Client
construction always succeeds in the source. -/
def reconcileClusterNormalWith
    (recNetwork recLB : DataCrunchCluster → DataCrunchCluster × Option String)
    (c : DataCrunchCluster) : ClusterRecResult :=
  if ¬ c.finalizers.contains ClusterFinalizer then
    { cluster := { c with finalizers := c.finalizers ++ [ClusterFinalizer] },
      requeueAfter := 0, err := none }
  else
    match recNetwork c with
    | (c1, some e) =>
      { cluster := clusterMarkFalse c1 NetworkInfrastructureReadyCondition
          NetworkReconciliationFailedReason .error e,
        requeueAfter := 30, err := some e }
    | (c1, none) =>
      match recLB c1 with
      | (c2, some e) =>
        { cluster := clusterMarkFalse c2 LoadBalancerReadyCondition
            LoadBalancerReconciliationFailedReason .error e,
          requeueAfter := 30, err := some e }
      | (c2, none) =>
        { cluster := { c2 with status := { c2.status with
            ready := true
            conditions := markTrueC c2.status.conditions NetworkInfrastructureReadyCondition } },
          requeueAfter := 0, err := none }

/-- `DataCrunchClusterReconciler.reconcileNormal` with its actual
sub-reconciliations. -/
def reconcileClusterNormal (clusterName : String) (c : DataCrunchCluster) : ClusterRecResult :=
  reconcileClusterNormalWith reconcileNetwork (reconcileLoadBalancer clusterName) c

/-! ## Concrete fixtures used by witnesses and counterexamples -/

/-- A cloud instance in state `running` with both IPs set. -/
def instRunning : Instance :=
  { id := "i-1", name := "test-machine", state := "running",
    privateIP := "10.0.1.100", publicIP := "192.168.1.100" }

/-- A stub cloud that reports `instRunning` everywhere and succeeds on
every mutation. -/
def cbRunning : CloudBehavior :=
  { getInstance := fun _ => .ok instRunning
    createInstance := fun _ => .ok instRunning
    startInstance := fun _ => none
    deleteInstance := fun _ => none }

/-- A machine whose terminal latch is set. -/
def mLatched : DataCrunchMachine :=
  { name := "test-machine"
    finalizers := [MachineFinalizer]
    spec := { providerID := some "datacrunch://i-1", instanceType := "1xH100.80G" }
    status := { failureReason := some UpdateMachineError,
                failureMessage := some "Instance was terminated" } }

/-- A stub cloud that answers "not found" to every instance fetch. -/
def cbNotFound : CloudBehavior :=
  { getInstance := fun iid => .error (notFoundMsg iid)
    createInstance := fun _ => .error "create refused"
    startInstance := fun _ => some "start refused"
    deleteInstance := fun _ => some "delete refused" }

/-- A healthy machine carrying a stamped provider id. -/
def mProv : DataCrunchMachine :=
  { name := "test-machine"
    finalizers := [MachineFinalizer]
    spec := { providerID := some "datacrunch://i-1", instanceType := "1xH100.80G" } }

/-- A cloud instance still booting. -/
def instPending : Instance :=
  { id := "i-9", name := "test-machine", state := "pending" }

/-- A stub cloud that creates `instPending` and finds nothing. -/
def cbPending : CloudBehavior :=
  { getInstance := fun iid => .error (notFoundMsg iid)
    createInstance := fun _ => .ok instPending
    startInstance := fun _ => none
    deleteInstance := fun _ => none }

/-- A machine whose provider id is 13 characters or shorter. -/
def mShort : DataCrunchMachine :=
  { name := "test-machine"
    finalizers := [MachineFinalizer]
    spec := { providerID := some "dc://i-9", instanceType := "1xH100.80G" } }

/-- A running instance with private IP `10.0.0.5` and no public IP. -/
def instRun5 : Instance :=
  { id := "i-1", name := "test-machine", state := "running",
    privateIP := "10.0.0.5", publicIP := "" }

/-- A stub cloud always answering `instRun5`. -/
def cbRun5 : CloudBehavior :=
  { getInstance := fun _ => .ok instRun5
    createInstance := fun _ => .ok instRun5
    startInstance := fun _ => none
    deleteInstance := fun _ => none }

/-- A terminated instance. -/
def instTerm : Instance :=
  { id := "i-1", name := "test-machine", state := "terminated" }

/-- A stub cloud always answering `instTerm`. -/
def cbTerm : CloudBehavior :=
  { getInstance := fun _ => .ok instTerm
    createInstance := fun _ => .ok instTerm
    startInstance := fun _ => none
    deleteInstance := fun _ => none }

/-- A stopped instance. -/
def instStopped : Instance :=
  { id := "i-1", name := "test-machine", state := "stopped" }

/-- A stub cloud answering `instStopped` whose start call fails. -/
def cbStoppedFail : CloudBehavior :=
  { getInstance := fun _ => .ok instStopped
    createInstance := fun _ => .ok instStopped
    startInstance := fun _ => some "start failed"
    deleteInstance := fun _ => none }

/-- A stub cloud whose instance fetch fails with an error that is not the
"not found" message. -/
def cbBoom : CloudBehavior :=
  { getInstance := fun _ => .error "boom"
    createInstance := fun _ => .error "boom"
    startInstance := fun _ => some "boom"
    deleteInstance := fun _ => some "boom" }

/-- A stub cloud that finds `instRunning` but refuses to delete it. -/
def cbDeleteFails : CloudBehavior :=
  { getInstance := fun _ => .ok instRunning
    createInstance := fun _ => .ok instRunning
    startInstance := fun _ => none
    deleteInstance := fun _ => some "api 500" }

/-! ## Helper lemmas -/

/-- `find?` over a condition list with the matched key replaced returns
the replacement. -/
theorem find?_map_set (c : Condition) : ∀ cs : List Condition,
    cs.any (fun c0 => c0.condType = c.condType) = true →
    (cs.map (fun c0 => if c0.condType = c.condType then c else c0)).find?
      (fun c0 => decide (c0.condType = c.condType)) = some c
  | [], h => by simp at h
  | hd :: tl, h => by
    by_cases hh : hd.condType = c.condType
    · simp [List.find?_cons, hh]
    · have h' : tl.any (fun c0 => c0.condType = c.condType) = true := by
        simpa [List.any_cons, hh] using h
      simp only [List.map_cons, List.find?_cons, if_neg hh]
      rw [show decide (hd.condType = c.condType) = false from by simp [hh]]
      exact find?_map_set c tl h'

/-- After setting a condition, looking its type up returns it. -/
theorem getCondition_set (cs : List Condition) (c : Condition) :
    getCondition (setCondition cs c) c.condType = some c := by
  unfold setCondition getCondition
  by_cases h : cs.any (fun c0 => c0.condType = c.condType)
  · rw [if_pos h]
    exact find?_map_set c cs h
  · rw [if_neg h]
    have hn : cs.find? (fun c0 => decide (c0.condType = c.condType)) = none := by
      rw [List.find?_eq_none]
      intro x hx
      simp only [decide_eq_true_eq]
      intro hc
      exact h (List.any_eq_true.mpr ⟨x, hx, by simp [hc]⟩)
    rw [List.find?_append, hn]
    simp

/-- Dropping 13 characters of a string longer than 13 leaves a nonempty
string. -/
theorem drop13_ne_empty (s : String) (h : s.length > 13) : s.drop 13 ≠ "" := by
  intro h0
  have h1 : (s.drop 13).1 = s.1.drop 13 := String.data_drop s 13
  rw [h0] at h1
  have h2 : s.1.drop 13 = [] := h1.symm
  have h3 : s.1.length - 13 = 0 := by simpa using congrArg List.length h2
  have h4 : s.length = s.1.length := rfl
  omega

/-- A latched machine is returned untouched by `reconcileNormal` (shared
helper). -/
theorem reconcileNormal_of_latched
    (cb : CloudBehavior) (bootstrap : Except String String)
    (infraReady : Bool) (secretName : Option String)
    (clusterName machineName : String) (m : DataCrunchMachine)
    (h : m.status.failureReason ≠ none ∨ m.status.failureMessage ≠ none) :
    reconcileNormal cb bootstrap infraReady secretName clusterName machineName m =
      { machine := m, requeueAfter := 0, err := none, calls := [] } := by
  have hb : (m.status.failureReason.isSome || m.status.failureMessage.isSome) = true := by
    rcases h with h | h <;> simp [Option.isSome_iff_ne_none, h]
  simp [reconcileNormal, hb]

/-! ## Claim theorems -/

/-- **C1.** With `FailureReason` or `FailureMessage` already set, a normal
reconcile returns immediately: empty result, nil error, no cloud-client
call, and the whole machine object (failure fields, `Ready`, `Addresses`,
finalizers) unchanged — whatever the cloud would now report. -/
theorem terminal_latch_short_circuits
    (cb : CloudBehavior) (bootstrap : Except String String)
    (infraReady : Bool) (secretName : Option String)
    (clusterName machineName : String) (m : DataCrunchMachine)
    (h : m.status.failureReason ≠ none ∨ m.status.failureMessage ≠ none) :
    reconcileNormal cb bootstrap infraReady secretName clusterName machineName m =
      { machine := m, requeueAfter := 0, err := none, calls := [] } :=
  reconcileNormal_of_latched cb bootstrap infraReady secretName clusterName machineName m h

/-- Witness for C1: the latched machine under a cloud now reporting
`running` is returned untouched with an empty trace. -/
theorem terminal_latch_short_circuits_witness :
    (mLatched.status.failureReason ≠ none ∨ mLatched.status.failureMessage ≠ none) ∧
      reconcileNormal cbRunning (.ok "userdata") true (some "secret") "test-cluster"
        "test-machine" mLatched =
        { machine := mLatched, requeueAfter := 0, err := none, calls := [] } :=
  ⟨Or.inl (by simp [mLatched]),
    terminal_latch_short_circuits cbRunning (.ok "userdata") true (some "secret")
      "test-cluster" "test-machine" mLatched (Or.inl (by simp [mLatched]))⟩

/-- **C3.** When a provider id parses to a nonempty instance id, a
`GetInstance` error that is exactly `"instance not found: <id>"` makes
`findInstance` return no instance and no error; any other fetch error
propagates; with no provider id no lookup happens at all. -/
theorem findInstance_not_found_is_absent (cb : CloudBehavior) (m : DataCrunchMachine) :
    (∀ pid, m.spec.providerID = some pid → parseInstanceID pid ≠ "" →
      cb.getInstance (parseInstanceID pid) = .error (notFoundMsg (parseInstanceID pid)) →
      findInstance cb m = (.ok none, [.getInstance (parseInstanceID pid)])) ∧
    (∀ pid e, m.spec.providerID = some pid → parseInstanceID pid ≠ "" →
      cb.getInstance (parseInstanceID pid) = .error e → e ≠ notFoundMsg (parseInstanceID pid) →
      findInstance cb m = (.error e, [.getInstance (parseInstanceID pid)])) ∧
    (m.spec.providerID = none → findInstance cb m = (.ok none, [])) := by
  refine ⟨?_, ?_, ?_⟩
  · intro pid hpid hne hget
    simp only [findInstance, hpid]
    rw [if_pos hne, hget]
    simp
  · intro pid e hpid hne hget hnf
    simp only [findInstance, hpid]
    rw [if_pos hne, hget]
    simp [hnf]
  · intro hpid
    simp only [findInstance, hpid]

/-- Witness for C3: with provider id `"datacrunch://i-1"` and a cloud that
answers "not found", `findInstance` yields `(none, no error)` after a
single fetch of `"i-1"`. -/
theorem findInstance_not_found_is_absent_witness :
    mProv.spec.providerID = some "datacrunch://i-1" ∧
    findInstance cbNotFound mProv = (.ok none, [.getInstance "i-1"]) := by
  refine ⟨rfl, ?_⟩
  have h := (findInstance_not_found_is_absent cbNotFound mProv).1 "datacrunch://i-1" rfl
    (by decide) rfl
  rw [show parseInstanceID "datacrunch://i-1" = "i-1" from by decide] at h
  exact h

/-- **C10.** `findInstance` extracts the instance id by dropping the first
13 characters of any provider id longer than 13 — no check that the
prefix is `"datacrunch://"` — and for provider ids of length at most 13
the id is empty, no cloud call happens and the machine counts as having
no instance, so the create path runs next. -/
theorem findInstance_blind_parse :
    (∀ pid, pid.length > 13 → parseInstanceID pid = pid.drop 13) ∧
    (∀ (cb : CloudBehavior) (m : DataCrunchMachine) pid,
      m.spec.providerID = some pid → pid.length > 13 →
      (findInstance cb m).2 = [.getInstance (pid.drop 13)]) ∧
    (∀ pid, pid.length ≤ 13 → parseInstanceID pid = "") ∧
    (∀ (cb : CloudBehavior) (m : DataCrunchMachine) pid,
      m.spec.providerID = some pid → pid.length ≤ 13 →
      findInstance cb m = (.ok none, [])) ∧
    (∀ (cb : CloudBehavior) (ud : String) (m : DataCrunchMachine)
        (clusterName machineName pid : String) (inst : Instance),
      m.status.failureReason = none → m.status.failureMessage = none →
      m.finalizers.contains MachineFinalizer = true →
      m.spec.providerID = some pid → pid.length ≤ 13 →
      cb.createInstance (buildInstanceSpec m clusterName machineName ud) = .ok inst →
      inst.state = "pending" →
      (reconcileNormal cb (.ok ud) true (some "secret") clusterName machineName m).calls =
        [.createInstance (buildInstanceSpec m clusterName machineName ud)]) := by
  have hparse_long : ∀ pid : String, pid.length > 13 → parseInstanceID pid = pid.drop 13 :=
    fun pid h => if_pos h
  have hparse_short : ∀ pid : String, pid.length ≤ 13 → parseInstanceID pid = "" :=
    fun pid h => if_neg (by omega)
  have hfind_short : ∀ (cb : CloudBehavior) (m : DataCrunchMachine) pid,
      m.spec.providerID = some pid → pid.length ≤ 13 →
      findInstance cb m = (.ok none, []) := by
    intro cb m pid hpid hlen
    simp only [findInstance, hpid]
    rw [hparse_short pid hlen]
    simp
  refine ⟨hparse_long, ?_, hparse_short, hfind_short, ?_⟩
  · intro cb m pid hpid hlen
    have hne : pid.drop 13 ≠ "" := drop13_ne_empty pid hlen
    simp only [findInstance, hpid]
    rw [hparse_long pid hlen, if_pos hne]
    cases cb.getInstance (pid.drop 13) with
    | error e =>
      dsimp only
      split <;> rfl
    | ok inst => rfl
  · intro cb ud m clusterName machineName pid inst hfr hfm hfin hpid hlen hcreate hstate
    have hlatch : (m.status.failureReason.isSome || m.status.failureMessage.isSome) = false := by
      simp [hfr, hfm]
    simp only [reconcileNormal, hlatch, hfin, hfind_short cb m pid hpid hlen,
      createInstance, hcreate, Bool.false_eq_true, if_false, not_true, ite_false,
      Bool.not_eq_true]
    simp [hstate]

/-- Witness for C10: `"dc://i-9"` is at most 13 characters long, so the
lookup is skipped and a reconcile under a healthy gate creates a fresh
instance. -/
theorem findInstance_blind_parse_witness :
    ("dc://i-9" : String).length ≤ 13 ∧
    findInstance cbPending mShort = (.ok none, []) ∧
    (reconcileNormal cbPending (.ok "ud") true (some "secret") "test-cluster"
        "test-machine" mShort).calls =
      [.createInstance (buildInstanceSpec mShort "test-cluster" "test-machine" "ud")] := by
  refine ⟨by decide, ?_, ?_⟩
  · exact findInstance_blind_parse.2.2.2.1 cbPending mShort "dc://i-9" rfl (by decide)
  · exact findInstance_blind_parse.2.2.2.2 cbPending "ud" mShort "test-cluster"
      "test-machine" "dc://i-9" instPending rfl rfl (by decide) rfl (by decide) rfl rfl

/-- **C2 counterexample.** Deleting a machine whose lookup fails with
`"boom"` (not the "not found" message) removes the finalizer and requests
no requeue — the claim's required behavior (finalizer kept, requeue
requested) does not hold. -/
theorem delete_lookup_error_cex :
    (findInstance cbBoom mProv).1 = .error "boom" ∧
    "boom" ≠ notFoundMsg "i-1" ∧
    (reconcileDelete cbBoom mProv).machine.finalizers.contains MachineFinalizer = false ∧
    (reconcileDelete cbBoom mProv).requeueAfter = 0 ∧
    (reconcileDelete cbBoom mProv).err = none := by
  decide

/-- **C2 amended.** When the instance lookup fails during deletion, the
delete reconcile swallows the error (it is only logged), removes the
`MachineFinalizer`, and returns an empty result with nil error. -/
theorem delete_swallows_lookup_error (cb : CloudBehavior) (m : DataCrunchMachine) (e : String)
    (h : (findInstance cb m).1 = .error e) :
    reconcileDelete cb m =
      { machine := { m with finalizers := m.finalizers.filter (fun f => f ≠ MachineFinalizer) },
        requeueAfter := 0, err := none, calls := (findInstance cb m).2 } := by
  rcases hfe : findInstance cb m with ⟨r, calls⟩
  rw [hfe] at h
  simp only at h
  subst h
  simp only [reconcileDelete, hfe]

/-- Witness for C2's amended claim at the `"boom"` cloud. -/
theorem delete_swallows_lookup_error_witness :
    (findInstance cbBoom mProv).1 = .error "boom" ∧
    reconcileDelete cbBoom mProv =
      { machine := { mProv with finalizers := [] }, requeueAfter := 0, err := none,
        calls := [.getInstance "i-1"] } := by
  have h1 : (findInstance cbBoom mProv).1 = .error "boom" := by decide
  refine ⟨h1, ?_⟩
  rw [delete_swallows_lookup_error cbBoom mProv "boom" h1]
  decide

/-- **C7.** During deletion, a failing `DeleteInstance` on a found
instance returns that error with a 30-second requeue and keeps the
machine (finalizer included) untouched; a successful delete, or no
instance at all, removes the finalizer and returns an empty result with
nil error. -/
theorem delete_blocks_only_on_delete_failure (cb : CloudBehavior) (m : DataCrunchMachine) :
    (∀ inst cs e, findInstance cb m = (.ok (some inst), cs) →
      cb.deleteInstance inst.id = some e →
      reconcileDelete cb m =
        { machine := m, requeueAfter := 30, err := some e,
          calls := cs ++ [.deleteInstance inst.id] }) ∧
    (∀ inst cs, findInstance cb m = (.ok (some inst), cs) →
      cb.deleteInstance inst.id = none →
      reconcileDelete cb m =
        { machine := { m with finalizers := m.finalizers.filter (fun f => f ≠ MachineFinalizer) },
          requeueAfter := 0, err := none, calls := cs ++ [.deleteInstance inst.id] }) ∧
    (∀ cs, findInstance cb m = (.ok none, cs) →
      reconcileDelete cb m =
        { machine := { m with finalizers := m.finalizers.filter (fun f => f ≠ MachineFinalizer) },
          requeueAfter := 0, err := none, calls := cs }) := by
  refine ⟨?_, ?_, ?_⟩
  · intro inst cs e hfind hdel
    simp only [reconcileDelete, hfind, hdel]
  · intro inst cs hfind hdel
    simp only [reconcileDelete, hfind, hdel]
  · intro cs hfind
    simp only [reconcileDelete, hfind]

/-- Witness for C7: a found instance whose deletion fails keeps the
finalizer and requeues after 30 seconds with the error. -/
theorem delete_blocks_only_on_delete_failure_witness :
    findInstance cbDeleteFails mProv = (.ok (some instRunning), [.getInstance "i-1"]) ∧
    reconcileDelete cbDeleteFails mProv =
      { machine := mProv, requeueAfter := 30, err := some "api 500",
        calls := [.getInstance "i-1", .deleteInstance "i-1"] } := by
  have h1 : findInstance cbDeleteFails mProv = (.ok (some instRunning), [.getInstance "i-1"]) := by
    decide
  refine ⟨h1, ?_⟩
  rw [(delete_blocks_only_on_delete_failure cbDeleteFails mProv).1 instRunning
    [.getInstance "i-1"] "api 500" h1 rfl]
  decide

/-- **C5.** Observing state `running` sets `Ready`, marks InstanceReady
true, and replaces the address list with hostname first, then an
InternalIP entry iff the private IP is nonempty, then an ExternalIP
entry iff the public IP is nonempty; with private IP `10.0.0.5` and
empty public IP the list has exactly the two entries. -/
theorem running_sets_ready_and_addresses
    (cb : CloudBehavior) (bootstrap : Except String String) (secretName : Option String)
    (clusterName machineName : String) (m : DataCrunchMachine)
    (inst : Instance) (cs : List CloudCall)
    (hfr : m.status.failureReason = none) (hfm : m.status.failureMessage = none)
    (hfin : m.finalizers.contains MachineFinalizer = true)
    (hsec : secretName.isSome = true)
    (hfind : findInstance cb m = (.ok (some inst), cs))
    (hstate : inst.state = "running") :
    (reconcileNormal cb bootstrap true secretName clusterName machineName m).machine.status.ready
        = true ∧
    getCondition (reconcileNormal cb bootstrap true secretName clusterName machineName
        m).machine.status.conditions InstanceReadyCondition =
      some { condType := InstanceReadyCondition, status := true, reason := "",
             severity := .info, message := "" } ∧
    (reconcileNormal cb bootstrap true secretName clusterName machineName
        m).machine.status.addresses =
      [{ addrType := .hostname, address := inst.name }]
      ++ (if inst.privateIP ≠ "" then
            [{ addrType := .internalIP, address := inst.privateIP }] else [])
      ++ (if inst.publicIP ≠ "" then
            [{ addrType := .externalIP, address := inst.publicIP }] else []) ∧
    (inst.privateIP = "10.0.0.5" → inst.publicIP = "" →
      (reconcileNormal cb bootstrap true secretName clusterName machineName
          m).machine.status.addresses =
        [{ addrType := .hostname, address := inst.name },
         { addrType := .internalIP, address := "10.0.0.5" }]) ∧
    (reconcileNormal cb bootstrap true secretName clusterName machineName m).requeueAfter = 0 ∧
    (reconcileNormal cb bootstrap true secretName clusterName machineName m).err = none := by
  have hlatch : (m.status.failureReason.isSome || m.status.failureMessage.isSome) = false := by
    simp [hfr, hfm]
  have hsn : secretName.isNone = false := by
    rcases Option.isSome_iff_exists.mp hsec with ⟨s, rfl⟩
    rfl
  have hIR : InstanceReadyCondition =
      (Condition.mk InstanceReadyCondition true "" .info "").condType := rfl
  simp only [reconcileNormal, hlatch, hfin, hsn, hfind, hstate, Bool.false_eq_true,
    not_true, not_false_iff, if_true, if_false, ite_true, ite_false, Bool.not_eq_true,
    Option.isNone_none, Option.isSome_some, if_neg, Bool.false_eq_true]
  refine ⟨trivial, ?_, trivial, ?_, trivial, trivial⟩
  · rw [hIR]
    split <;> exact getCondition_set _ _
  · intro hpriv hpub
    rw [hpriv, hpub]
    rw [if_pos (by decide : ("10.0.0.5" : String) ≠ "")]
    rw [if_neg (by decide : ¬(("" : String) ≠ ""))]
    rfl

/-- Witness for C5 at the stub cloud reporting `running` with private IP
`10.0.0.5` and empty public IP: two addresses, hostname first. -/
theorem running_sets_ready_and_addresses_witness :
    findInstance cbRun5 mProv = (.ok (some instRun5), [.getInstance "i-1"]) ∧
    (reconcileNormal cbRun5 (.ok "ud") true (some "secret") "test-cluster" "test-machine"
        mProv).machine.status.ready = true ∧
    (reconcileNormal cbRun5 (.ok "ud") true (some "secret") "test-cluster" "test-machine"
        mProv).machine.status.addresses =
      [{ addrType := .hostname, address := "test-machine" },
       { addrType := .internalIP, address := "10.0.0.5" }] := by
  have h1 : findInstance cbRun5 mProv = (.ok (some instRun5), [.getInstance "i-1"]) := by
    decide
  have h := running_sets_ready_and_addresses cbRun5 (.ok "ud") (some "secret") "test-cluster"
    "test-machine" mProv instRun5 [.getInstance "i-1"] rfl rfl (by decide) rfl h1 rfl
  exact ⟨h1, h.1, h.2.2.2.1 rfl rfl⟩

/-- **C6.** Observing state `terminated` latches non-nil
`FailureReason`/`FailureMessage`, marks InstanceReady False with reason
InstanceTerminated and severity Error, returns an empty result with nil
error, and every subsequent normal reconcile of the resulting object
returns it unchanged with zero cloud calls. -/
theorem terminated_latches_failure
    (cb : CloudBehavior) (bootstrap : Except String String) (secretName : Option String)
    (clusterName machineName : String) (m : DataCrunchMachine)
    (inst : Instance) (cs : List CloudCall)
    (hfr : m.status.failureReason = none) (hfm : m.status.failureMessage = none)
    (hfin : m.finalizers.contains MachineFinalizer = true)
    (hsec : secretName.isSome = true)
    (hfind : findInstance cb m = (.ok (some inst), cs))
    (hstate : inst.state = "terminated") :
    (reconcileNormal cb bootstrap true secretName clusterName machineName
        m).machine.status.failureReason = some UpdateMachineError ∧
    (reconcileNormal cb bootstrap true secretName clusterName machineName
        m).machine.status.failureMessage = some "Instance was terminated" ∧
    getCondition (reconcileNormal cb bootstrap true secretName clusterName machineName
        m).machine.status.conditions InstanceReadyCondition =
      some { condType := InstanceReadyCondition, status := false,
             reason := InstanceTerminatedReason, severity := .error,
             message := "Instance was terminated" } ∧
    (reconcileNormal cb bootstrap true secretName clusterName machineName m).requeueAfter = 0 ∧
    (reconcileNormal cb bootstrap true secretName clusterName machineName m).err = none ∧
    (∀ (cb' : CloudBehavior) (bootstrap' : Except String String) (infra' : Bool)
        (secret' : Option String) (cn' mn' : String),
      reconcileNormal cb' bootstrap' infra' secret' cn' mn'
          (reconcileNormal cb bootstrap true secretName clusterName machineName m).machine =
        { machine := (reconcileNormal cb bootstrap true secretName clusterName machineName
            m).machine,
          requeueAfter := 0, err := none, calls := [] }) := by
  have hlatch : (m.status.failureReason.isSome || m.status.failureMessage.isSome) = false := by
    simp [hfr, hfm]
  have hsn : secretName.isNone = false := by
    rcases Option.isSome_iff_exists.mp hsec with ⟨s, rfl⟩
    rfl
  have hmem : MachineFinalizer ∈ m.finalizers := by simpa using hfin
  have hIR : InstanceReadyCondition =
      (Condition.mk InstanceReadyCondition false InstanceTerminatedReason .error
        "Instance was terminated").condType := rfl
  have hfr' : (reconcileNormal cb bootstrap true secretName clusterName machineName
      m).machine.status.failureReason = some UpdateMachineError := by
    simp [reconcileNormal, machineMarkFalse, hlatch, hmem, hsn, hfind, hstate]
  refine ⟨hfr', ?_, ?_, ?_, ?_, ?_⟩
  · simp [reconcileNormal, machineMarkFalse, hlatch, hmem, hsn, hfind, hstate]
  · simp [reconcileNormal, machineMarkFalse, hlatch, hmem, hsn, hfind, hstate]
    rw [hIR]
    split <;> exact getCondition_set _ _
  · simp [reconcileNormal, machineMarkFalse, hlatch, hmem, hsn, hfind, hstate]
  · simp [reconcileNormal, machineMarkFalse, hlatch, hmem, hsn, hfind, hstate]
  · intro cb' bootstrap' infra' secret' cn' mn'
    refine reconcileNormal_of_latched cb' bootstrap' infra' secret' cn' mn' _ (Or.inl ?_)
    rw [hfr']
    simp

/-- Witness for C6 at the stub cloud reporting `terminated`. -/
theorem terminated_latches_failure_witness :
    findInstance cbTerm mProv = (.ok (some instTerm), [.getInstance "i-1"]) ∧
    (reconcileNormal cbTerm (.ok "ud") true (some "secret") "test-cluster" "test-machine"
        mProv).machine.status.failureReason = some UpdateMachineError ∧
    (reconcileNormal cbTerm (.ok "ud") true (some "secret") "test-cluster" "test-machine"
        mProv).err = none := by
  have h1 : findInstance cbTerm mProv = (.ok (some instTerm), [.getInstance "i-1"]) := by
    decide
  have h := terminated_latches_failure cbTerm (.ok "ud") (some "secret") "test-cluster"
    "test-machine" mProv instTerm [.getInstance "i-1"] rfl rfl (by decide) rfl h1 rfl
  exact ⟨h1, h.1, h.2.2.2.2.1⟩

/-- **C9.** Observing state `stopped` issues a `StartInstance` call on the
instance and requeues after 30 seconds; a failing start propagates its
error with the same delay; `Ready` is not touched in either case. -/
theorem stopped_starts_and_requeues
    (cb : CloudBehavior) (bootstrap : Except String String) (secretName : Option String)
    (clusterName machineName : String) (m : DataCrunchMachine)
    (inst : Instance) (cs : List CloudCall)
    (hfr : m.status.failureReason = none) (hfm : m.status.failureMessage = none)
    (hfin : m.finalizers.contains MachineFinalizer = true)
    (hsec : secretName.isSome = true)
    (hfind : findInstance cb m = (.ok (some inst), cs))
    (hstate : inst.state = "stopped") :
    (reconcileNormal cb bootstrap true secretName clusterName machineName m).calls =
      cs ++ [.startInstance inst.id] ∧
    (reconcileNormal cb bootstrap true secretName clusterName machineName m).requeueAfter = 30 ∧
    (reconcileNormal cb bootstrap true secretName clusterName machineName m).err =
      cb.startInstance inst.id ∧
    (reconcileNormal cb bootstrap true secretName clusterName machineName
        m).machine.status.ready = m.status.ready := by
  have hlatch : (m.status.failureReason.isSome || m.status.failureMessage.isSome) = false := by
    simp [hfr, hfm]
  have hsn : secretName.isNone = false := by
    rcases Option.isSome_iff_exists.mp hsec with ⟨s, rfl⟩
    rfl
  have hmem : MachineFinalizer ∈ m.finalizers := by simpa using hfin
  rcases hstart : cb.startInstance inst.id with _ | e <;>
    simp [reconcileNormal, hlatch, hmem, hsn, hfind, hstate, hstart] <;>
    split <;> rfl

/-- Witness for C9: a stopped instance whose start call fails yields the
error with a 30-second requeue and a `StartInstance` call in the trace. -/
theorem stopped_starts_and_requeues_witness :
    findInstance cbStoppedFail mProv = (.ok (some instStopped), [.getInstance "i-1"]) ∧
    (reconcileNormal cbStoppedFail (.ok "ud") true (some "secret") "test-cluster"
        "test-machine" mProv).calls = [.getInstance "i-1", .startInstance "i-1"] ∧
    (reconcileNormal cbStoppedFail (.ok "ud") true (some "secret") "test-cluster"
        "test-machine" mProv).requeueAfter = 30 ∧
    (reconcileNormal cbStoppedFail (.ok "ud") true (some "secret") "test-cluster"
        "test-machine" mProv).err = some "start failed" := by
  have h1 : findInstance cbStoppedFail mProv = (.ok (some instStopped), [.getInstance "i-1"]) := by
    decide
  have h := stopped_starts_and_requeues cbStoppedFail (.ok "ud") (some "secret") "test-cluster"
    "test-machine" mProv instStopped [.getInstance "i-1"] rfl rfl (by decide) rfl h1 rfl
  exact ⟨h1, h.1, h.2.1, h.2.2.1⟩

/-- **C4.** `Spec.ProviderID` is immutable once set: any normal reconcile
of a machine whose provider id is `some p` leaves it `some p`; and when
it is unset, the reconcile that obtains an instance stamps it to
`"datacrunch://"` followed by that instance's id (with no provider id the
lookup finds nothing, so the instance is the freshly created one). -/
theorem providerID_stamped_once
    (cb : CloudBehavior) (bootstrap : Except String String) (infraReady : Bool)
    (secretName : Option String) (clusterName machineName : String)
    (m : DataCrunchMachine) :
    (∀ p, m.spec.providerID = some p →
      (reconcileNormal cb bootstrap infraReady secretName clusterName machineName
          m).machine.spec.providerID = some p) ∧
    (∀ ud inst cs,
      m.status.failureReason = none → m.status.failureMessage = none →
      m.finalizers.contains MachineFinalizer = true → infraReady = true →
      secretName.isSome = true → m.spec.providerID = none →
      bootstrap = .ok ud →
      findInstance cb m = (.ok none, cs) →
      cb.createInstance (buildInstanceSpec m clusterName machineName ud) = .ok inst →
      (reconcileNormal cb bootstrap infraReady secretName clusterName machineName
          m).machine.spec.providerID = some ("datacrunch://" ++ inst.id)) := by
  constructor
  · intro p hp
    unfold reconcileNormal
    repeat' split
    all_goals try first
      | rfl
      | exact hp
      | simp_all [machineMarkFalse]
    all_goals repeat' split
    all_goals first
      | rfl
      | exact hp
      | simp_all [machineMarkFalse]
  · intro ud inst cs hfr hfm hfin hinfra hsec hpid hboot hfind hcreate
    subst hboot
    subst hinfra
    have hlatch : (m.status.failureReason.isSome || m.status.failureMessage.isSome) = false := by
      simp [hfr, hfm]
    have hsn : secretName.isNone = false := by
      rcases Option.isSome_iff_exists.mp hsec with ⟨s, rfl⟩
      rfl
    have hmem : MachineFinalizer ∈ m.finalizers := by simpa using hfin
    simp only [reconcileNormal, hlatch, hmem, hsn, hfind, createInstance, hcreate,
      machineMarkFalse, hpid, Bool.false_eq_true, if_false, ite_false, not_true,
      Option.isNone_none, ite_true, if_true, Bool.not_eq_true]
    repeat' split
    all_goals first
      | rfl
      | simp_all [machineMarkFalse]

/-- A machine not yet stamped with a provider id. -/
def mNew : DataCrunchMachine :=
  { name := "test-machine"
    finalizers := [MachineFinalizer]
    spec := { providerID := none, instanceType := "1xH100.80G" } }

/-- Witness for C4: a stamped provider id survives a reconcile under a
running cloud, and an unset one is stamped from the created instance. -/
theorem providerID_stamped_once_witness :
    mProv.spec.providerID = some "datacrunch://i-1" ∧
    (reconcileNormal cbRunning (.ok "ud") true (some "secret") "test-cluster" "test-machine"
        mProv).machine.spec.providerID = some "datacrunch://i-1" ∧
    mNew.spec.providerID = none ∧
    (reconcileNormal cbPending (.ok "ud") true (some "secret") "test-cluster" "test-machine"
        mNew).machine.spec.providerID = some "datacrunch://i-9" := by
  refine ⟨rfl, ?_, rfl, ?_⟩
  · exact (providerID_stamped_once cbRunning (.ok "ud") true (some "secret") "test-cluster"
      "test-machine" mProv).1 "datacrunch://i-1" rfl
  · have h := (providerID_stamped_once cbPending (.ok "ud") true (some "secret") "test-cluster"
      "test-machine" mNew).2 "ud" instPending [] rfl rfl (by decide) rfl rfl rfl rfl rfl rfl
    rw [h]
    decide

/-- `reconcileNetwork` never fails. -/
theorem reconcileNetwork_no_err (c : DataCrunchCluster) : (reconcileNetwork c).2 = none := rfl

/-- `reconcileLoadBalancer` never fails. -/
theorem reconcileLoadBalancer_no_err (n : String) (c : DataCrunchCluster) :
    (reconcileLoadBalancer n c).2 = none := by
  unfold reconcileLoadBalancer
  split <;> rfl

/-- **C8.** In the cluster reconcile skeleton, with sub-reconciliations
that do not themselves touch `ready`: a missing finalizer leaves `ready`
unchanged; a network or load-balancer failure leaves `ready` unchanged
and returns the error with a 30-second requeue and a False/Error
condition; only after both succeed (finalizer present) is `ready` set
true; and the actual sub-reconciliations never fail, so the concrete
cluster reconcile with the finalizer present always ends ready. -/
theorem cluster_ready_after_both_subreconciles
    (recN recLB : DataCrunchCluster → DataCrunchCluster × Option String)
    (c : DataCrunchCluster)
    (hN : ∀ c', ((recN c').1).status.ready = c'.status.ready)
    (hL : ∀ c', ((recLB c').1).status.ready = c'.status.ready) :
    (c.finalizers.contains ClusterFinalizer = false →
      (reconcileClusterNormalWith recN recLB c).cluster.status.ready = c.status.ready ∧
      (reconcileClusterNormalWith recN recLB c).err = none) ∧
    (∀ c1 e, c.finalizers.contains ClusterFinalizer = true →
      recN c = (c1, some e) →
      (reconcileClusterNormalWith recN recLB c).cluster.status.ready = c.status.ready ∧
      (reconcileClusterNormalWith recN recLB c).requeueAfter = 30 ∧
      (reconcileClusterNormalWith recN recLB c).err = some e ∧
      getCondition (reconcileClusterNormalWith recN recLB c).cluster.status.conditions
          NetworkInfrastructureReadyCondition =
        some { condType := NetworkInfrastructureReadyCondition, status := false,
               reason := NetworkReconciliationFailedReason, severity := .error,
               message := e }) ∧
    (∀ c1 c2 e, c.finalizers.contains ClusterFinalizer = true →
      recN c = (c1, none) → recLB c1 = (c2, some e) →
      (reconcileClusterNormalWith recN recLB c).cluster.status.ready = c.status.ready ∧
      (reconcileClusterNormalWith recN recLB c).requeueAfter = 30 ∧
      (reconcileClusterNormalWith recN recLB c).err = some e ∧
      getCondition (reconcileClusterNormalWith recN recLB c).cluster.status.conditions
          LoadBalancerReadyCondition =
        some { condType := LoadBalancerReadyCondition, status := false,
               reason := LoadBalancerReconciliationFailedReason, severity := .error,
               message := e }) ∧
    (∀ c1 c2, c.finalizers.contains ClusterFinalizer = true →
      recN c = (c1, none) → recLB c1 = (c2, none) →
      (reconcileClusterNormalWith recN recLB c).cluster.status.ready = true ∧
      (reconcileClusterNormalWith recN recLB c).requeueAfter = 0 ∧
      (reconcileClusterNormalWith recN recLB c).err = none) ∧
    (∀ name, c.finalizers.contains ClusterFinalizer = true →
      (reconcileClusterNormal name c).cluster.status.ready = true ∧
      (reconcileClusterNormal name c).err = none) := by
  have hNIR : NetworkInfrastructureReadyCondition =
      (Condition.mk NetworkInfrastructureReadyCondition false
        NetworkReconciliationFailedReason .error "").condType := rfl
  refine ⟨?_, ?_, ?_, ?_, ?_⟩
  · intro hfin
    have hnm : ClusterFinalizer ∉ c.finalizers := by simpa using hfin
    simp [reconcileClusterNormalWith, hnm]
  · intro c1 e hfin hrecN
    have hm : ClusterFinalizer ∈ c.finalizers := by simpa using hfin
    have hr : ((recN c).1).status.ready = c.status.ready := hN c
    rw [hrecN] at hr
    refine ⟨?_, ?_, ?_, ?_⟩
    · simp [reconcileClusterNormalWith, clusterMarkFalse, hm, hrecN]
      exact hr
    · simp [reconcileClusterNormalWith, clusterMarkFalse, hm, hrecN]
    · simp [reconcileClusterNormalWith, clusterMarkFalse, hm, hrecN]
    · have hset := getCondition_set c1.status.conditions
        { condType := NetworkInfrastructureReadyCondition, status := false,
          reason := NetworkReconciliationFailedReason, severity := .error, message := e }
      simpa [reconcileClusterNormalWith, clusterMarkFalse, markFalseC, hm, hrecN] using hset
  · intro c1 c2 e hfin hrecN hrecLB
    have hm : ClusterFinalizer ∈ c.finalizers := by simpa using hfin
    have hr1 : ((recN c).1).status.ready = c.status.ready := hN c
    rw [hrecN] at hr1
    have hr2 : ((recLB c1).1).status.ready = c1.status.ready := hL c1
    rw [hrecLB] at hr2
    refine ⟨?_, ?_, ?_, ?_⟩
    · simp [reconcileClusterNormalWith, clusterMarkFalse, hm, hrecN, hrecLB]
      rw [hr2, hr1]
    · simp [reconcileClusterNormalWith, clusterMarkFalse, hm, hrecN, hrecLB]
    · simp [reconcileClusterNormalWith, clusterMarkFalse, hm, hrecN, hrecLB]
    · have hset := getCondition_set c2.status.conditions
        { condType := LoadBalancerReadyCondition, status := false,
          reason := LoadBalancerReconciliationFailedReason, severity := .error, message := e }
      simpa [reconcileClusterNormalWith, clusterMarkFalse, markFalseC, hm, hrecN, hrecLB]
        using hset
  · intro c1 c2 hfin hrecN hrecLB
    have hm : ClusterFinalizer ∈ c.finalizers := by simpa using hfin
    refine ⟨?_, ?_, ?_⟩ <;>
      simp [reconcileClusterNormalWith, hm, hrecN, hrecLB]
  · intro name hfin
    rcases hrecN : reconcileNetwork c with ⟨c1, eN⟩
    have heN : eN = none := by
      have := reconcileNetwork_no_err c
      rw [hrecN] at this
      exact this
    subst heN
    rcases hrecLB : reconcileLoadBalancer name c1 with ⟨c2, eL⟩
    have heL : eL = none := by
      have := reconcileLoadBalancer_no_err name c1
      rw [hrecLB] at this
      exact this
    subst heL
    have hm : ClusterFinalizer ∈ c.finalizers := by simpa using hfin
    constructor <;>
      simp [reconcileClusterNormal, reconcileClusterNormalWith, hm, hrecN, hrecLB]

/-- A cluster carrying its finalizer. -/
def cFin : DataCrunchCluster :=
  { name := "test-cluster", finalizers := [ClusterFinalizer] }

/-- A sub-reconciliation that fails with "net down" and touches nothing. -/
def recNetFail : DataCrunchCluster → DataCrunchCluster × Option String :=
  fun c => (c, some "net down")

/-- A sub-reconciliation that succeeds and touches nothing. -/
def recNoop : DataCrunchCluster → DataCrunchCluster × Option String :=
  fun c => (c, none)

/-- Witness for C8: a failing network sub-reconciliation leaves `ready`
false with a 30-second requeue and the error, while the concrete
reconcile (whose sub-steps never fail) sets `ready`. -/
theorem cluster_ready_after_both_subreconciles_witness :
    (reconcileClusterNormalWith recNetFail recNoop cFin).cluster.status.ready = false ∧
    (reconcileClusterNormalWith recNetFail recNoop cFin).requeueAfter = 30 ∧
    (reconcileClusterNormalWith recNetFail recNoop cFin).err = some "net down" ∧
    (reconcileClusterNormal "test-cluster" cFin).cluster.status.ready = true ∧
    (reconcileClusterNormal "test-cluster" cFin).err = none := by
  have h := cluster_ready_after_both_subreconciles recNetFail recNoop cFin
    (fun _ => rfl) (fun _ => rfl)
  have h2 := h.2.1 cFin "net down" (by decide) rfl
  have h5 := h.2.2.2.2 "test-cluster" (by decide)
  exact ⟨h2.1, h2.2.1, h2.2.2.1, h5.1, h5.2⟩

end DataCrunch
